import Mathlib

/-!
Shallow embedding of the emission calculation and projection engine of the
esg-reporting-backend repository (src/emissions/models.py, src/emissions/views.py,
src/emissions/signals.py).  Decimal and float quantities are modelled as exact
rationals (ℚ); years and other Python integers are modelled as ℤ/ℕ.
-/

namespace ESG

/-- Modification kinds, from models.py MODIFICATION_TYPES: VALUE or EF. -/
inductive ModType where
  | VALUE
  | EF
deriving DecidableEq, Repr

/-- Source record (models.py class Source), restricted to the fields consumed by
the calculation engine.  `year` is the optional pinned year (models.py field
`year`, a nullable PositiveIntegerField). -/
structure Source where
  emission_factor : ℚ
  value : ℚ
  quantity : ℕ
  lifetime : ℕ
  acquisition_year : ℤ
  year : Option ℤ
deriving DecidableEq, Repr

/-- Modification record (models.py class Modification), restricted to the fields
consumed by the calculation engine.  `target_value` is nullable in the database;
it is only read on progressive paths (where Python would raise a TypeError if it
were None), so it is modelled as a plain rational. -/
structure Modification where
  modification_type : ModType
  value : ℚ
  start_year : ℤ
  end_year : Option ℤ
  is_progressive : Bool
  target_value : ℚ
  calculation_year : ℤ
deriving DecidableEq, Repr

/-- models.py Source.annual_emission: emission_factor * value * quantity. -/
def Source.annual_emission (s : Source) : ℚ :=
  s.emission_factor * s.value * (s.quantity : ℚ)

/-- Guard of the first branch of models.py Source.calculate_emission_for_year:
`if self.year and self.year != year`.  Python truthiness makes a stored year of
0 behave exactly like a missing year. -/
def Source.yearPinBlocks (s : Source) (year : ℤ) : Bool :=
  match s.year with
  | none => false
  | some y0 => y0 != 0 && y0 != year

/-- models.py Source.calculate_emission_for_year: 0 when the pin blocks the
year, 0 outside [acquisition_year, acquisition_year + lifetime), otherwise the
annual emission. -/
def Source.calculate_emission_for_year (s : Source) (year : ℤ) : ℚ :=
  if s.yearPinBlocks year then 0
  else if year < s.acquisition_year ∨ s.acquisition_year + (s.lifetime : ℤ) ≤ year then 0
  else s.annual_emission

/-- Progressive interpolation of the usage value, as written identically in
models.py Modification.calculate_modified_emission (lines 292-296) and in
views.py project_emissions (lines 584-588):
total_years = e - s + 1, years_passed = min(year - s + 1, total_years),
progress = years_passed / total_years,
current_value = v + (t - v) * progress. -/
def progressiveCurrentValue (v t : ℚ) (s e year : ℤ) : ℚ :=
  v + (t - v) * (((min (year - s + 1) (e - s + 1) : ℤ) : ℚ) / ((e - s + 1 : ℤ) : ℚ))

/-- models.py Modification.calculate_modified_emission.  `base_emission = none`
falls back to the source's emission for `calculation_year`, as in the Python
default.  On the progressive branch with a missing `end_year` Python raises a
TypeError; that branch is modelled as returning the base and is excluded by
hypothesis wherever it matters. -/
def Modification.calculate_modified_emission
    (m : Modification) (src : Source) (base_emission : Option ℚ) : ℚ :=
  let base := base_emission.getD (src.calculate_emission_for_year m.calculation_year)
  match m.modification_type with
  | ModType.VALUE =>
    if m.is_progressive = true then
      match m.end_year with
      | some e =>
          base * (progressiveCurrentValue src.value m.target_value m.start_year e
                    m.calculation_year / src.value)
      | none => base
    else base * m.value
  | ModType.EF => (base / src.emission_factor) * m.value

/-- Year-window guard of the per-modification loop in views.py project_emissions
(line 583): `modification.start_year <= year and (modification.end_year is None
or year <= modification.end_year)`. -/
def modActive (m : Modification) (year : ℤ) : Bool :=
  decide (m.start_year ≤ year) &&
    (match m.end_year with
     | none => true
     | some e => decide (year ≤ e))

/-- Same window guard as a proposition, for stating theorems. -/
def inWindow (m : Modification) (year : ℤ) : Prop :=
  m.start_year ≤ year ∧ (m.end_year = none ∨ ∃ e, m.end_year = some e ∧ year ≤ e)

/-- Body of the per-modification loop in views.py project_emissions (lines
582-592): inside the window, a progressive modification overwrites the running
modified_value with the interpolated usage value, while a non-progressive
modification multiplies it by mod.value exactly when year == start_year.  The
progressive branch with a missing end_year (a Python TypeError) is modelled as a
no-op and excluded by hypothesis wherever it matters. -/
def projStep (src : Source) (year : ℤ) (modified_value : ℚ) (m : Modification) : ℚ :=
  if modActive m year = true then
    if m.is_progressive = true then
      match m.end_year with
      | some e => progressiveCurrentValue src.value m.target_value m.start_year e year
      | none => modified_value
    else
      if year = m.start_year then modified_value * m.value else modified_value
  else modified_value

/-- One year of the modification loop of views.py project_emissions: fold the
per-modification step over the ordered modification list. -/
def projYear (src : Source) (mods : List Modification) (year : ℤ) (modified_value : ℚ) : ℚ :=
  mods.foldl (projStep src year) modified_value

/-- The year loop of views.py project_emissions (lines 576-595), indexed by the
number of remaining years.  Outside [acquisition_year, acquisition_year +
lifetime) the year is emitted as 0 and the running modified_value is left
untouched; otherwise the modifications are applied and the emission is
emission_factor * modified_value * quantity / lifetime. -/
def projectFrom (src : Source) (mods : List Modification) : ℤ → ℚ → ℕ → List (ℤ × ℚ)
  | _, _, 0 => []
  | year, mv, n + 1 =>
    if year < src.acquisition_year ∨ src.acquisition_year + (src.lifetime : ℤ) ≤ year then
      (year, 0) :: projectFrom src mods (year + 1) mv n
    else
      (year, src.emission_factor * projYear src mods year mv * (src.quantity : ℚ) /
        (src.lifetime : ℚ)) ::
        projectFrom src mods (year + 1) (projYear src mods year mv) n

/-- views.py project_emissions: iterate the year loop over
range(start_year, end_year + 1), starting from modified_value = source.value.
The Python dict keyed by str(year) is modelled as an association list keyed by
the year. -/
def project_emissions (src : Source) (mods : List Modification) (start_year end_year : ℤ) :
    List (ℤ × ℚ) :=
  projectFrom src mods start_year src.value (end_year + 1 - start_year).toNat

/-- Lookup of one year in the projected emissions dictionary. -/
def lookupYear : List (ℤ × ℚ) → ℤ → Option ℚ
  | [], _ => none
  | (y, e) :: rest, year => if year = y then some e else lookupYear rest year

/-- Running modified_value of views.py project_emissions after the first k
iterations of the year loop, starting at year `year` with value `mv`: inactive
years leave the value untouched, active years apply the modification fold. -/
def mvAfterFrom (src : Source) (mods : List Modification) : ℤ → ℚ → ℕ → ℚ
  | _, mv, 0 => mv
  | year, mv, k + 1 =>
    mvAfterFrom src mods (year + 1)
      (if year < src.acquisition_year ∨ src.acquisition_year + (src.lifetime : ℤ) ≤ year then mv
       else projYear src mods year mv) k

/-- Active-lifetime mask of views.py calculate_total_reduction (line 664):
acquisition_year <= year < acquisition_year + lifetime. -/
def sourceActive (src : Source) (year : ℤ) : Bool :=
  decide (src.acquisition_year ≤ year) &&
    decide (year < src.acquisition_year + (src.lifetime : ℤ))

/-- Body of the per-modification loop of views.py calculate_total_reduction
(lines 669-678) for one source and one year: a progressive modification
replaces the current emission with emission_factor * current_value * quantity,
where current_value interpolates the usage value with progress
min((year - s + 1) / (e - s + 1), 1); a non-progressive VALUE modification
multiplies by mod.value and an EF modification multiplies by
mod.value / emission_factor.  The progressive branch with a missing end_year (a
Python TypeError) is modelled as a no-op and excluded by hypothesis wherever it
matters. -/
def reductionModStep (src : Source) (year : ℤ) (cur : ℚ) (m : Modification) : ℚ :=
  if m.is_progressive = true then
    match m.end_year with
    | some e =>
      src.emission_factor *
        (src.value + (m.target_value - src.value) *
          min (((year - m.start_year + 1 : ℤ) : ℚ) / ((e - m.start_year + 1 : ℤ) : ℚ)) 1) *
        (src.quantity : ℚ)
    | none => cur
  else
    match m.modification_type with
    | ModType.VALUE => cur * m.value
    | ModType.EF => cur * (m.value / src.emission_factor)

/-- views.py calculate_total_reduction, restricted to one source and one year:
the original emission is emission_factor * value * quantity when the source is
active (else 0), and every modification of the strategy with start_year <= year
is folded over it through the active mask. -/
def reductionModifiedEmission (src : Source) (mods : List Modification) (year : ℤ) : ℚ :=
  (mods.filter (fun m => decide (m.start_year ≤ year))).foldl
    (fun cur m => if sourceActive src year = true then reductionModStep src year cur m else cur)
    (if sourceActive src year = true then src.annual_emission else 0)

/-- Per-source body of the helper projected_total_emissions in views.py (lines
610-617): start from the source's emission for the year, then for each strategy
fold calculate_modified_emission over the modifications filtered only by
start_year <= year (the end_year bound is not part of the filter). -/
def projectedSourceEmission (src : Source) (strategies : List (List Modification))
    (year : ℤ) : ℚ :=
  strategies.foldl
    (fun em mods =>
      (mods.filter (fun m => decide (m.start_year ≤ year))).foldl
        (fun em m => m.calculate_modified_emission src (some em)) em)
    (src.calculate_emission_for_year year)

/-- views.py projected_total_emissions: sum of the per-source results, each
source carrying its own per-strategy modification lists. -/
def projected_total_emissions (entries : List (Source × List (List Modification)))
    (year : ℤ) : ℚ :=
  (entries.map (fun e => projectedSourceEmission e.1 e.2 year)).sum

/-- Report record (models.py class Report), restricted to the fields consumed by
the calculation engine: its sources and the cached total (FloatField
total_emissions_cache, modelled exactly as an optional rational). -/
structure Report where
  sources : List Source
  total_emissions_cache : Option ℚ
deriving DecidableEq, Repr

/-- models.py Report.total_emissions with a year argument (lines 42-47): sum of
emission_factor * value * quantity over the sources filtered by
acquisition_year <= year and acquisition_year > year - lifetime.  The
source.year pin is not part of the filter. -/
def Report.total_emissions_year (r : Report) (year : ℤ) : ℚ :=
  ((r.sources.filter (fun s =>
      decide (s.acquisition_year ≤ year) &&
        decide (year - (s.lifetime : ℤ) < s.acquisition_year))).map
    (fun s => s.emission_factor * s.value * (s.quantity : ℚ))).sum

/-- models.py Report.total_emissions with year=None (lines 34-40): sum of
emission_factor * value * quantity * min(lifetime, current_year -
acquisition_year + 1) over all sources; ExtractYear(Now()) is passed explicitly
as current_year. -/
def Report.total_emissions_noyear (r : Report) (current_year : ℤ) : ℚ :=
  (r.sources.map (fun s =>
    s.emission_factor * s.value * (s.quantity : ℚ) *
      ((min (s.lifetime : ℤ) (current_year - s.acquisition_year + 1) : ℤ) : ℚ))).sum

/-- models.py Report.update_total_emissions: store total_emissions() in the
cache field and save. -/
def Report.update_total_emissions (r : Report) (current_year : ℤ) : Report :=
  { r with total_emissions_cache := some (r.total_emissions_noyear current_year) }

/-- models.py Report.get_total_emissions: serve the cache when present,
otherwise compute and store it first.  Returns the served value together with
the resulting report state. -/
def Report.get_total_emissions (r : Report) (current_year : ℤ) : ℚ × Report :=
  match r.total_emissions_cache with
  | some v => (v, r)
  | none =>
    (r.total_emissions_noyear current_year, r.update_total_emissions current_year)

/-- Creating a Source of a report: the post_save signal handler in signals.py
(update_report_emissions) synchronously calls report.update_total_emissions(). -/
def createSource (r : Report) (s : Source) (current_year : ℤ) : Report :=
  Report.update_total_emissions { r with sources := r.sources ++ [s] } current_year

/-- Updating a Source of a report (replace the source at index i): the
post_save signal handler synchronously recomputes the cached total. -/
def updateSource (r : Report) (i : ℕ) (s : Source) (current_year : ℤ) : Report :=
  Report.update_total_emissions { r with sources := r.sources.set i s } current_year

/-- Deleting a Source of a report (remove the source at index i): the
post_delete signal handler in signals.py (update_report_emissions_on_delete)
synchronously recomputes the cached total. -/
def deleteSource (r : Report) (i : ℕ) (current_year : ℤ) : Report :=
  Report.update_total_emissions { r with sources := r.sources.eraseIdx i } current_year

/-- views.py ProjectionViewSet.project_modifications, step 2: the maximum
allowed end year is start_year + 50. -/
def max_end_year (start_year : ℤ) : ℤ := start_year + 50

/-- views.py ProjectionViewSet.project_modifications, step 3:
`end_year = min(int(requested_end_year) if requested_end_year else
max_end_year, max_end_year)`.  Python truthiness makes a requested end year of 0
(as a JSON integer) behave exactly like an absent one. -/
def effective_end_year (start_year : ℤ) (requested_end_year : Option ℤ) : ℤ :=
  min
    (match requested_end_year with
     | some r => if r = 0 then max_end_year start_year else r
     | none => max_end_year start_year)
    (max_end_year start_year)

/-- Response payload of views.py ProjectionViewSet.project_modifications. -/
structure ProjectionResponse where
  projections : List (ℤ × ℚ)
  start_year : ℤ
  end_year : ℤ
  max_allowed_end_year : ℤ
deriving DecidableEq, Repr

/-- views.py ProjectionViewSet.project_modifications: cap the end year, run
project_emissions, and report the projections together with start_year, the
effective end_year and max_allowed_end_year. -/
def project_modifications (src : Source) (mods : List Modification) (start_year : ℤ)
    (requested_end_year : Option ℤ) : ProjectionResponse :=
  { projections := project_emissions src mods start_year
      (effective_end_year start_year requested_end_year)
    start_year := start_year
    end_year := effective_end_year start_year requested_end_year
    max_allowed_end_year := max_end_year start_year }

/-! Concrete records used by counterexamples and witnesses. -/

/-- Test source of the spec's concrete scenario: ef=0.1, value=1000, qty=1,
lifetime=5, acquisition_year=2023, no pinned year. -/
def srcC3 : Source := ⟨1/10, 1000, 1, 5, 2023, none⟩

/-- Non-progressive VALUE modification of the spec's concrete scenario:
value=0.9, start_year=2024, no end year.  target_value is unused (None in the
repository's test data) and set to 0. -/
def modC3 : Modification := ⟨ModType.VALUE, 9/10, 2024, none, false, 0, 2024⟩

/-- Progressive VALUE modification over [2024, 2026] with target_value 2000,
evaluated at calculation_year 2025. -/
def modC1 : Modification := ⟨ModType.VALUE, 1, 2024, some 2026, true, 2000, 2025⟩

/-- Progressive VALUE modification over [2024, 2026] with target_value 2000,
evaluated at calculation_year 2024 (the start of its window). -/
def modC2 : Modification := ⟨ModType.VALUE, 1, 2024, some 2026, true, 2000, 2024⟩

/-- Source pinned to year 2023 (a truthy pin), otherwise identical to srcC3. -/
def srcC5 : Source := ⟨1/10, 1000, 1, 5, 2023, some 2023⟩

/-- Source whose pinned year is 0: Python truthiness treats it as unset. -/
def srcC6 : Source := ⟨1, 1, 1, 5, 2023, some 0⟩

/-- Source used by the C4 counterexample: ef=1, value=100, qty=1, lifetime=10,
acquired 2020, no pin. -/
def srcC4 : Source := ⟨1, 100, 1, 10, 2020, none⟩

/-- Non-progressive VALUE modification whose window [2020, 2021] ends before
the year 2025 it is applied to. -/
def modC4 : Modification := ⟨ModType.VALUE, 1/2, 2020, some 2021, false, 0, 2025⟩

/-- Report holding only the pinned source srcC5 (pin 2023), no cache. -/
def reportC8 : Report := ⟨[srcC5], none⟩

/-- Report holding only the unpinned source srcC3, no cache. -/
def reportC8b : Report := ⟨[srcC3], none⟩

/-! Helper lemmas shared by several claims. -/

/-- The Bool window guard of project_emissions agrees with its propositional
form. -/
theorem modActive_iff (m : Modification) (year : ℤ) :
    modActive m year = true ↔ inWindow m year := by
  rcases hm : m.end_year with _ | e <;>
    simp [modActive, inWindow, hm]

/-- Lookup of the year y0 + k in the year loop of project_emissions, for k below
the number of iterations: an inactive year carries 0 and an active year carries
emission_factor * modified_value * quantity / lifetime, with modified_value the
running value mvAfterFrom of the first k iterations updated by the current
year's modification fold. -/
theorem lookup_projectFrom (src : Source) (mods : List Modification) :
    ∀ (k n : ℕ) (y0 : ℤ) (mv : ℚ), k < n →
      lookupYear (projectFrom src mods y0 mv n) (y0 + (k : ℤ)) =
        some (if y0 + (k : ℤ) < src.acquisition_year ∨
                 src.acquisition_year + (src.lifetime : ℤ) ≤ y0 + (k : ℤ) then 0
              else src.emission_factor *
                  projYear src mods (y0 + (k : ℤ)) (mvAfterFrom src mods y0 mv k) *
                  (src.quantity : ℚ) / (src.lifetime : ℚ)) := by
  intro k
  induction k with
  | zero =>
    intro n y0 mv hn
    cases n with
    | zero => exact absurd hn (by omega)
    | succ n =>
      by_cases hc : y0 < src.acquisition_year ∨
          src.acquisition_year + (src.lifetime : ℤ) ≤ y0
      · simp [projectFrom, lookupYear, mvAfterFrom, hc]
      · simp [projectFrom, lookupYear, mvAfterFrom, hc]
  | succ k ih =>
    intro n y0 mv hn
    cases n with
    | zero => exact absurd hn (by omega)
    | succ n =>
      have hk : k < n := by omega
      have hkey : ¬ (y0 + ((k + 1 : ℕ) : ℤ) = y0) := by push_cast; omega
      have hcast : y0 + ((k + 1 : ℕ) : ℤ) = (y0 + 1) + (k : ℤ) := by push_cast; ring
      by_cases hc : y0 < src.acquisition_year ∨
          src.acquisition_year + (src.lifetime : ℤ) ≤ y0
      · simp only [projectFrom, mvAfterFrom, if_pos hc, lookupYear, if_neg hkey]
        rw [hcast]
        exact ih n (y0 + 1) mv hk
      · simp only [projectFrom, mvAfterFrom, if_neg hc, lookupYear, if_neg hkey]
        rw [hcast]
        exact ih n (y0 + 1) (projYear src mods y0 mv) hk

/-- Filtered sum of annual emissions rewritten as a sum of guarded terms. -/
theorem sum_filter_ite (l : List Source) (y : ℤ) :
    ((l.filter (fun s =>
        decide (s.acquisition_year ≤ y) &&
          decide (y - (s.lifetime : ℤ) < s.acquisition_year))).map
      (fun s => s.emission_factor * s.value * (s.quantity : ℚ))).sum =
    (l.map (fun s =>
      if s.acquisition_year ≤ y ∧ y - (s.lifetime : ℤ) < s.acquisition_year then
        s.emission_factor * s.value * (s.quantity : ℚ)
      else 0)).sum := by
  induction l with
  | nil => rfl
  | cons a t ih =>
    by_cases hc : a.acquisition_year ≤ y ∧ y - (a.lifetime : ℤ) < a.acquisition_year
    · simp [List.filter_cons, hc, ih]
    · simp [List.filter_cons, hc, ih]

/-- For a source with no pinned year the guarded annual-emission term equals
calculate_emission_for_year. -/
theorem unpinned_emission_eq (s : Source) (y : ℤ) (hs : s.year = none) :
    (if s.acquisition_year ≤ y ∧ y - (s.lifetime : ℤ) < s.acquisition_year then
        s.emission_factor * s.value * (s.quantity : ℚ)
      else 0) = s.calculate_emission_for_year y := by
  have hpin : s.yearPinBlocks y = false := by simp [Source.yearPinBlocks, hs]
  by_cases hw : s.acquisition_year ≤ y ∧ y - (s.lifetime : ℤ) < s.acquisition_year
  · rw [if_pos hw]
    unfold Source.calculate_emission_for_year
    rw [hpin]
    rw [if_neg (by omega : ¬ (y < s.acquisition_year ∨
        s.acquisition_year + (s.lifetime : ℤ) ≤ y))]
    rfl
  · rw [if_neg hw]
    unfold Source.calculate_emission_for_year
    rw [hpin]
    rw [if_pos (by omega : y < s.acquisition_year ∨
        s.acquisition_year + (s.lifetime : ℤ) ≤ y)]
    simp

/-- The per-modification step of project_emissions never reads
modification_type, so two modifications differing only in their type produce
the same step. -/
theorem projStep_type_irrel (src : Source) (y : ℤ) (mv : ℚ) (m : Modification)
    (ty1 ty2 : ModType) :
    projStep src y mv { m with modification_type := ty1 } =
      projStep src y mv { m with modification_type := ty2 } := rfl

/-- Replacing one modification of the list by a step-equivalent one leaves the
per-year fold of project_emissions unchanged. -/
theorem projYear_middle (src : Source) (m1 m2 : Modification)
    (h : ∀ (y : ℤ) (mv : ℚ), projStep src y mv m1 = projStep src y mv m2)
    (p q : List Modification) (y : ℤ) (mv : ℚ) :
    projYear src (p ++ m1 :: q) y mv = projYear src (p ++ m2 :: q) y mv := by
  simp [projYear, List.foldl_append, List.foldl_cons, h]

/-- Replacing one modification of the list by a step-equivalent one leaves the
whole year loop of project_emissions unchanged. -/
theorem projectFrom_middle (src : Source) (m1 m2 : Modification)
    (h : ∀ (y : ℤ) (mv : ℚ), projStep src y mv m1 = projStep src y mv m2)
    (p q : List Modification) :
    ∀ (n : ℕ) (y0 : ℤ) (mv : ℚ),
      projectFrom src (p ++ m1 :: q) y0 mv n = projectFrom src (p ++ m2 :: q) y0 mv n := by
  intro n
  induction n with
  | zero => intro y0 mv; rfl
  | succ n ih =>
    intro y0 mv
    by_cases hc : y0 < src.acquisition_year ∨
        src.acquisition_year + (src.lifetime : ℤ) ≤ y0
    · simp only [projectFrom, if_pos hc, ih]
    · simp only [projectFrom, if_neg hc, projYear_middle src m1 m2 h p q, ih]

/-! Claim theorems. -/

/-- Claim C1: for every source with value > 0, every progressive VALUE
modification with a present end year, and every year in the modification's
window, the progressive branch of the Reduction Aggregator
(calculate_total_reduction) computes exactly the value of the Modification
Pipeline's progressive formula (calculate_modified_emission) on the same
source, modification and year, given the source's annual emission as base. -/
theorem C1_theorem (src : Source) (m : Modification) (e y : ℤ) (cur : ℚ)
    (hval : 0 < src.value) (hprog : m.is_progressive = true)
    (hty : m.modification_type = ModType.VALUE) (he : m.end_year = some e)
    (hcal : m.calculation_year = y) (h1 : m.start_year ≤ y) (h2 : y ≤ e) :
    reductionModStep src y cur m =
      m.calculate_modified_emission src (some src.annual_emission) := by
  have hden : (0 : ℤ) < e - m.start_year + 1 := by omega
  have hdenQ : (0 : ℚ) < ((e - m.start_year + 1 : ℤ) : ℚ) := by exact_mod_cast hden
  have hnum_le : (y - m.start_year + 1 : ℤ) ≤ e - m.start_year + 1 := by omega
  have hminZ : min (y - m.start_year + 1) (e - m.start_year + 1) = y - m.start_year + 1 :=
    min_eq_left hnum_le
  have hminQ :
      min (((y - m.start_year + 1 : ℤ) : ℚ) / ((e - m.start_year + 1 : ℤ) : ℚ)) 1 =
        ((y - m.start_year + 1 : ℤ) : ℚ) / ((e - m.start_year + 1 : ℤ) : ℚ) :=
    min_eq_left ((div_le_one hdenQ).2 (by exact_mod_cast hnum_le))
  simp only [reductionModStep, Modification.calculate_modified_emission, hprog, hty, he, hcal,
    progressiveCurrentValue, hminZ, hminQ, Source.annual_emission, Option.getD_some, if_true]
  field_simp
  ring

/-- Claim C1 witness: the two code paths agree on the concrete progressive
modification modC1 over [2024, 2026] at year 2025. -/
theorem C1_witness :
    0 < srcC3.value ∧
    reductionModStep srcC3 2025 7 modC1 =
      Modification.calculate_modified_emission modC1 srcC3 (some srcC3.annual_emission) :=
  ⟨by norm_num [srcC3],
   C1_theorem srcC3 modC1 2026 2025 7 (by norm_num [srcC3]) rfl rfl rfl rfl
     (by decide) (by decide)⟩

/-- Claim C2 counterexample: for the progressive modification modC2 over
[2024, 2026] with target 2000 on a source of value 1000, the interpolated
current_value at year = start_year is 4000/3, not the source's value 1000
(the code's progress at the window's first year is 1/3, not 0). -/
theorem C2_counterexample :
    srcC3.value = 1000 ∧ modC2.start_year = 2024 ∧ modC2.end_year = some 2026 ∧
    progressiveCurrentValue srcC3.value modC2.target_value modC2.start_year 2026
        modC2.start_year = 4000 / 3 ∧
    (4000 / 3 : ℚ) ≠ srcC3.value := by
  refine ⟨rfl, rfl, rfl, ?_, by norm_num [srcC3]⟩
  norm_num [progressiveCurrentValue, srcC3, modC2]

/-- Claim C2 amended: for a progressive modification over [s, e] evaluated at a
year y with s ≤ y ≤ e, the interpolated current_value is
v + (t - v) * (y - s + 1) / (e - s + 1); at year = e it equals the target value
(progress 1), and at year = s it equals v + (t - v) / (e - s + 1) (progress
1 / (e - s + 1)), not the source's original value. -/
theorem C2_theorem (v t : ℚ) (s e y : ℤ) (hy1 : s ≤ y) (hy2 : y ≤ e) :
    progressiveCurrentValue v t s e y =
      v + (t - v) * (((y - s + 1 : ℤ) : ℚ) / ((e - s + 1 : ℤ) : ℚ)) ∧
    progressiveCurrentValue v t s e e = t ∧
    progressiveCurrentValue v t s e s = v + (t - v) * (1 / ((e - s + 1 : ℤ) : ℚ)) := by
  have hse : s ≤ e := le_trans hy1 hy2
  have hx : ((e - s + 1 : ℤ) : ℚ) ≠ 0 := by
    exact_mod_cast (by omega : (e - s + 1 : ℤ) ≠ 0)
  refine ⟨?_, ?_, ?_⟩
  · unfold progressiveCurrentValue
    rw [min_eq_left (by omega : y - s + 1 ≤ e - s + 1)]
  · unfold progressiveCurrentValue
    rw [min_self, div_self hx]
    ring
  · unfold progressiveCurrentValue
    rw [show min (s - s + 1) (e - s + 1) = 1 by
      rw [show s - s + 1 = 1 by ring]
      exact min_eq_left (by omega)]
    norm_num

/-- Claim C2 witness: the amended interpolation facts instantiated at
v = 1000, t = 2000 over [2024, 2026] at year 2025. -/
theorem C2_witness :
    progressiveCurrentValue 1000 2000 2024 2026 2026 = 2000 ∧
    progressiveCurrentValue 1000 2000 2024 2026 2025 =
      1000 + (2000 - 1000) *
        (((2025 - 2024 + 1 : ℤ) : ℚ) / ((2026 - 2024 + 1 : ℤ) : ℚ)) :=
  ⟨(C2_theorem 1000 2000 2024 2026 2025 (by decide) (by decide)).2.1,
   (C2_theorem 1000 2000 2024 2026 2025 (by decide) (by decide)).1⟩

/-- Claim C6 counterexample: a source whose pinned year is 0 is treated as
unpinned by calculate_emission_for_year (Python truthiness of `if self.year`),
so with year set to 0 and 2024 ≠ 0 the function returns the annual emission 1,
not 0. -/
theorem C6_counterexample :
    srcC6.year = some 0 ∧ (2024 : ℤ) ≠ 0 ∧
    Source.calculate_emission_for_year srcC6 2024 = 1 ∧ (1 : ℚ) ≠ 0 := by
  refine ⟨rfl, by decide, ?_, by norm_num⟩
  norm_num [srcC6, Source.calculate_emission_for_year, Source.yearPinBlocks,
    Source.annual_emission]

/-- Claim C6 amended: calculate_emission_for_year returns 0 when source.year is
set to a nonzero pinned year different from the requested year (a pin of 0 is
treated as unset); otherwise it returns 0 outside
[acquisition_year, acquisition_year + lifetime) and the annual emission
emission_factor * value * quantity inside it. -/
theorem C6_theorem (s : Source) (y : ℤ) :
    (∀ p, s.year = some p → p ≠ 0 → y ≠ p → s.calculate_emission_for_year y = 0) ∧
    ((s.year = none ∨ s.year = some 0 ∨ s.year = some y) →
      ((y < s.acquisition_year ∨ s.acquisition_year + (s.lifetime : ℤ) ≤ y →
          s.calculate_emission_for_year y = 0) ∧
        (s.acquisition_year ≤ y → y < s.acquisition_year + (s.lifetime : ℤ) →
          s.calculate_emission_for_year y =
            s.emission_factor * s.value * (s.quantity : ℚ)))) := by
  constructor
  · intro p hp hp0 hyp
    have hb : s.yearPinBlocks y = true := by
      simp [Source.yearPinBlocks, hp, bne_iff_ne, hp0]
      exact fun h => hyp h.symm
    simp [Source.calculate_emission_for_year, hb]
  · intro hcase
    have hb : s.yearPinBlocks y = false := by
      rcases hcase with h | h | h <;> simp [Source.yearPinBlocks, h]
    constructor
    · intro hout
      simp [Source.calculate_emission_for_year, hb, hout]
    · intro hin1 hin2
      have hout : ¬ (y < s.acquisition_year ∨ s.acquisition_year + (s.lifetime : ℤ) ≤ y) := by
        omega
      simp [Source.calculate_emission_for_year, hb, hout, Source.annual_emission]

/-- Claim C6 witness: the truthy pin 2023 of srcC5 blocks year 2024. -/
theorem C6_witness :
    srcC5.year = some 2023 ∧ Source.calculate_emission_for_year srcC5 2024 = 0 :=
  ⟨rfl, (C6_theorem srcC5 2024).1 2023 rfl (by decide) (by decide)⟩

/-- Claim C7 counterexample: a requested end year of 0 is falsy in Python, so
project_modifications uses start_year + 50 = 2074 rather than
min(0, start_year + 50) = 0. -/
theorem C7_counterexample :
    effective_end_year 2024 (some 0) = 2074 ∧ min (0 : ℤ) (2024 + 50) = 0 ∧
    (2074 : ℤ) ≠ 0 := by
  refine ⟨?_, by decide, by decide⟩
  norm_num [effective_end_year, max_end_year]

/-- Claim C7 amended: for every nonzero requested end year r the effective end
year is min(r, start_year + 50); an absent or zero requested end year defaults
to start_year + 50; requesting start_year + 1000 always yields
start_year + 50; and the response reports the effective end_year, the
max_allowed_end_year = start_year + 50, the echoed start_year, and the
projections computed up to the effective end year. -/
theorem C7_theorem (src : Source) (mods : List Modification) (st r : ℤ) (hr : r ≠ 0) :
    (project_modifications src mods st (some r)).end_year = min r (st + 50) ∧
    (project_modifications src mods st none).end_year = st + 50 ∧
    (project_modifications src mods st (some 0)).end_year = st + 50 ∧
    (project_modifications src mods st (some (st + 1000))).end_year = st + 50 ∧
    (project_modifications src mods st (some r)).max_allowed_end_year = st + 50 ∧
    (project_modifications src mods st (some r)).start_year = st ∧
    (project_modifications src mods st (some r)).projections =
      project_emissions src mods st (min r (st + 50)) := by
  have heff : effective_end_year st (some r) = min r (st + 50) := by
    simp [effective_end_year, max_end_year, hr]
  refine ⟨heff, ?_, ?_, ?_, rfl, rfl, ?_⟩
  · simp [project_modifications, effective_end_year, max_end_year]
  · simp [project_modifications, effective_end_year, max_end_year]
  · by_cases h0 : st + 1000 = 0
    · simp [project_modifications, effective_end_year, max_end_year, h0]
    · simp only [project_modifications, effective_end_year, max_end_year, if_neg h0]
      exact min_eq_right (by omega)
  · simp [project_modifications, heff]

/-- Claim C7 witness: requesting end year 2070 from start 2024 is kept, and the
cap data is reported. -/
theorem C7_witness :
    (project_modifications srcC3 [] 2024 (some 2070)).end_year = min 2070 (2024 + 50) ∧
    (project_modifications srcC3 [] 2024 (some (2024 + 1000))).end_year = 2024 + 50 ∧
    (project_modifications srcC3 [] 2024 (some 2070)).max_allowed_end_year = 2024 + 50 :=
  ⟨(C7_theorem srcC3 [] 2024 2070 (by decide)).1,
   (C7_theorem srcC3 [] 2024 2070 (by decide)).2.2.2.1,
   (C7_theorem srcC3 [] 2024 2070 (by decide)).2.2.2.2.1⟩

/-- Claim C4 counterexample: projected_total_emissions applies modC4 (window
[2020, 2021]) to the year 2025, well outside its window: the base emission 100
is halved to 50 instead of passing through unchanged. -/
theorem C4_counterexample :
    modC4.end_year = some 2021 ∧ ¬ ((2025 : ℤ) ≤ 2021) ∧
    Source.calculate_emission_for_year srcC4 2025 = 100 ∧
    projectedSourceEmission srcC4 [[modC4]] 2025 = 50 ∧ (50 : ℚ) ≠ 100 := by
  refine ⟨rfl, by decide, ?_, ?_, by norm_num⟩
  · norm_num [srcC4, Source.calculate_emission_for_year, Source.yearPinBlocks,
      Source.annual_emission]
  · norm_num [projectedSourceEmission, srcC4, modC4, List.filter_cons,
      Modification.calculate_modified_emission, Source.calculate_emission_for_year,
      Source.yearPinBlocks, Source.annual_emission]

/-- Claim C4 amended: the full window guard start_year ≤ year and (end_year is
null or year ≤ end_year) is enforced only inside project_emissions, where an
out-of-window modification is a no-op on the running value; the
projected_total_emissions path instead applies a modification exactly when
start_year ≤ year, ignoring end_year (and calculate_modified_emission itself
performs no window check). -/
theorem C4_theorem :
    (∀ (src : Source) (y : ℤ) (mv : ℚ) (m : Modification),
        ¬ inWindow m y → projStep src y mv m = mv) ∧
    (∀ (src : Source) (m : Modification) (y : ℤ),
        projectedSourceEmission src [[m]] y =
          if m.start_year ≤ y then
            m.calculate_modified_emission src (some (src.calculate_emission_for_year y))
          else src.calculate_emission_for_year y) := by
  constructor
  · intro src y mv m h
    have hA : modActive m y = false := by
      by_contra hp
      rw [Bool.not_eq_false] at hp
      exact h ((modActive_iff m y).1 hp)
    simp [projStep, hA]
  · intro src m y
    by_cases hs : m.start_year ≤ y <;>
      simp [projectedSourceEmission, List.filter_cons, hs]

/-- Claim C4 witness: modC3 (start 2024) is a no-op at year 2020 in the
projection engine, and the projected_total_emissions path applies modC4 at
year 2025 because only 2020 ≤ 2025 is checked. -/
theorem C4_witness :
    projStep srcC3 2020 1000 modC3 = 1000 ∧
    projectedSourceEmission srcC4 [[modC4]] 2025 =
      (if modC4.start_year ≤ (2025 : ℤ) then
        Modification.calculate_modified_emission modC4 srcC4
          (some (Source.calculate_emission_for_year srcC4 2025))
      else Source.calculate_emission_for_year srcC4 2025) :=
  ⟨C4_theorem.1 srcC3 2020 1000 modC3 (fun hw => absurd hw.1 (by decide)),
   C4_theorem.2 srcC4 modC4 2025⟩

/-- Claim C8 counterexample: the year-filtered total_emissions ignores the
source.year pin.  reportC8 holds one source pinned to 2023; at year 2024 the
report total is the annual emission 100 while the sum of emission_for_year over
its sources is 0. -/
theorem C8_counterexample :
    Report.total_emissions_year reportC8 2024 = 100 ∧
    (reportC8.sources.map (fun s => s.calculate_emission_for_year 2024)).sum = 0 ∧
    (100 : ℚ) ≠ 0 := by
  refine ⟨?_, ?_, by norm_num⟩
  · norm_num [reportC8, srcC5, Report.total_emissions_year, List.filter_cons,
      Source.annual_emission]
  · norm_num [reportC8, srcC5, Source.calculate_emission_for_year,
      Source.yearPinBlocks, Source.annual_emission]

/-- Claim C8 amended: total_emissions(report, year) is the sum over all sources
of emission_factor * value * quantity guarded only by the lifetime window
acquisition_year ≤ year < acquisition_year + lifetime; the source.year pin is
not consulted, so it coincides with the sum of emission_for_year exactly when
no source of the report carries a pinned year. -/
theorem C8_theorem (r : Report) (y : ℤ) :
    r.total_emissions_year y =
      (r.sources.map (fun s =>
        if s.acquisition_year ≤ y ∧ y - (s.lifetime : ℤ) < s.acquisition_year then
          s.emission_factor * s.value * (s.quantity : ℚ)
        else 0)).sum ∧
    ((∀ s ∈ r.sources, s.year = none) →
      r.total_emissions_year y =
        (r.sources.map (fun s => s.calculate_emission_for_year y)).sum) := by
  have h1 : r.total_emissions_year y =
      (r.sources.map (fun s =>
        if s.acquisition_year ≤ y ∧ y - (s.lifetime : ℤ) < s.acquisition_year then
          s.emission_factor * s.value * (s.quantity : ℚ)
        else 0)).sum := sum_filter_ite r.sources y
  refine ⟨h1, fun hnone => ?_⟩
  rw [h1]
  exact congrArg List.sum
    (List.map_congr_left (fun s hs => unpinned_emission_eq s y (hnone s hs)))

/-- Claim C8 witness: on a report whose only source carries no pin, the
year-filtered total equals the sum of per-source emission_for_year. -/
theorem C8_witness :
    Report.total_emissions_year reportC8b 2024 =
      (reportC8b.sources.map (fun s => s.calculate_emission_for_year 2024)).sum :=
  (C8_theorem reportC8b 2024).2 (by simp [reportC8b, srcC3])

/-- Claim C9: after creating, updating or deleting a source of a report, the
signal handlers synchronously store total_emissions recomputed on the mutated
source list, so the cache equals a fresh recomputation and a subsequent read
serves exactly that fresh value. -/
theorem C9_theorem (r : Report) (s : Source) (i : ℕ) (cy : ℤ) :
    (createSource r s cy).total_emissions_cache =
      some ((createSource r s cy).total_emissions_noyear cy) ∧
    (updateSource r i s cy).total_emissions_cache =
      some ((updateSource r i s cy).total_emissions_noyear cy) ∧
    (deleteSource r i cy).total_emissions_cache =
      some ((deleteSource r i cy).total_emissions_noyear cy) ∧
    ((createSource r s cy).get_total_emissions cy).1 =
      (createSource r s cy).total_emissions_noyear cy :=
  ⟨rfl, rfl, rfl, rfl⟩

/-- Claim C10: in project_emissions a non-progressive EF modification is
handled exactly like a non-progressive VALUE modification: the step function
ignores modification_type, the running value is multiplied by mod.value exactly
on year = start_year inside the window (never divided by emission_factor), and
swapping the type of one list element leaves the whole projection unchanged. -/
theorem C10_theorem (src : Source) (y : ℤ) (mv : ℚ) (m : Modification)
    (h : m.is_progressive = false) :
    projStep src y mv { m with modification_type := ModType.EF } =
      projStep src y mv { m with modification_type := ModType.VALUE } ∧
    projStep src y mv { m with modification_type := ModType.EF } =
      (if modActive m y = true ∧ y = m.start_year then mv * m.value else mv) ∧
    (∀ (p q : List Modification) (a b : ℤ),
      project_emissions src (p ++ { m with modification_type := ModType.EF } :: q) a b =
        project_emissions src (p ++ { m with modification_type := ModType.VALUE } :: q) a b) := by
  refine ⟨rfl, ?_, ?_⟩
  · rw [show projStep src y mv { m with modification_type := ModType.EF } =
        projStep src y mv m from rfl]
    unfold projStep
    rw [h]
    by_cases hA : modActive m y = true
    · by_cases hy : y = m.start_year <;> simp [hA, hy]
    · have hA2 : modActive m y = false := by
        revert hA; cases modActive m y <;> simp
      simp [hA2]
  · intro p q a b
    simp only [project_emissions]
    exact projectFrom_middle src _ _
      (fun yy vv => projStep_type_irrel src yy vv m ModType.EF ModType.VALUE) p q
      ((b + 1 - a).toNat) a src.value

/-- Claim C10 witness: at year 2024 the non-progressive modC3, retyped to EF,
still multiplies the running value 1000 by its value on its start year. -/
theorem C10_witness :
    projStep srcC3 2024 1000 { modC3 with modification_type := ModType.EF } =
      (if modActive modC3 2024 = true ∧ (2024 : ℤ) = modC3.start_year then
        1000 * modC3.value
      else 1000) :=
  (C10_theorem srcC3 2024 1000 modC3 rfl).2.1

/-- Claim C5 counterexample: project_emissions never consults source.year.
srcC5 is pinned to 2023, yet projecting the year 2024 (inside its lifetime
window but different from the pin) yields the normal emission 20, not 0. -/
theorem C5_counterexample :
    srcC5.year = some 2023 ∧ (2024 : ℤ) ≠ 2023 ∧
    lookupYear (project_emissions srcC5 [] 2024 2024) 2024 = some 20 ∧
    (20 : ℚ) ≠ 0 := by
  refine ⟨rfl, by decide, ?_, by norm_num⟩
  norm_num [project_emissions, projectFrom, projYear, lookupYear, srcC5]

/-- Claim C5 amended: for every projected year with year < acquisition_year or
year ≥ acquisition_year + lifetime, project_emissions outputs 0 independent of
the supplied modifications; the source.year pin of the §4.1 rule is not
consulted on this path. -/
theorem C5_theorem (src : Source) (mods : List Modification) (a b y : ℤ)
    (h1 : a ≤ y) (h2 : y ≤ b)
    (hout : y < src.acquisition_year ∨ src.acquisition_year + (src.lifetime : ℤ) ≤ y) :
    lookupYear (project_emissions src mods a b) y = some 0 := by
  have hres := lookup_projectFrom src mods (y - a).toNat (b + 1 - a).toNat a src.value
    (by omega)
  rw [show a + (((y - a).toNat : ℕ) : ℤ) = y from by omega] at hres
  simp only [project_emissions]
  rw [hres, if_pos hout]

/-- Claim C5 witness: the year 2028 lies outside the lifetime window of srcC3
(acquired 2023, lifetime 5), so its projected emission is 0. -/
theorem C5_witness :
    lookupYear (project_emissions srcC3 [modC3] 2023 2028) 2028 = some 0 :=
  C5_theorem srcC3 [modC3] 2023 2028 2028 (by decide) (by decide) (by decide)

/-- Claim C3: project_emissions reports each in-lifetime year as
emission_factor * modified_value * quantity / lifetime, where modified_value is
a running value (mvAfterFrom folded through projYear) that progressive
modifications overwrite with the interpolated usage value and non-progressive
VALUE modifications multiply exactly once, on the year equal to their
start_year; and on the spec's concrete scenario project(2023, 2028) yields
20, 18, 18, 18, 18, 0. -/
theorem C3_theorem :
    (∀ (src : Source) (mods : List Modification) (a b : ℤ) (k : ℕ),
        (k : ℤ) ≤ b - a →
        lookupYear (project_emissions src mods a b) (a + (k : ℤ)) =
          some (if a + (k : ℤ) < src.acquisition_year ∨
                   src.acquisition_year + (src.lifetime : ℤ) ≤ a + (k : ℤ) then 0
                else src.emission_factor *
                    projYear src mods (a + (k : ℤ)) (mvAfterFrom src mods a src.value k) *
                    (src.quantity : ℚ) / (src.lifetime : ℚ))) ∧
    (∀ (src : Source) (y : ℤ) (mv : ℚ) (m : Modification) (e : ℤ),
        m.is_progressive = true → m.end_year = some e → modActive m y = true →
        projStep src y mv m =
          progressiveCurrentValue src.value m.target_value m.start_year e y) ∧
    (∀ (src : Source) (y : ℤ) (mv : ℚ) (m : Modification),
        m.is_progressive = false → m.modification_type = ModType.VALUE →
        projStep src y mv m =
          if modActive m y = true ∧ y = m.start_year then mv * m.value else mv) ∧
    project_emissions srcC3 [modC3] 2023 2028 =
      [(2023, 20), (2024, 18), (2025, 18), (2026, 18), (2027, 18), (2028, 0)] := by
  refine ⟨?_, ?_, ?_, ?_⟩
  · intro src mods a b k hk
    have := lookup_projectFrom src mods k (b + 1 - a).toNat a src.value (by omega)
    simpa [project_emissions] using this
  · intro src y mv m e hprog he hact
    simp [projStep, hprog, he, hact]
  · intro src y mv m hprog hty
    unfold projStep
    rw [hprog]
    by_cases hA : modActive m y = true
    · by_cases hy : y = m.start_year <;> simp [hA, hy]
    · have hA2 : modActive m y = false := by
        revert hA; cases modActive m y <;> simp
      simp [hA2]
  · norm_num [project_emissions, projectFrom, projYear, projStep, modActive, srcC3, modC3,
      progressiveCurrentValue]

/-- Claim C3 witness: the running-value characterization applied at the third
projected year (2025) of the concrete scenario. -/
theorem C3_witness :
    lookupYear (project_emissions srcC3 [modC3] 2023 2028) (2023 + ((2 : ℕ) : ℤ)) =
      some (if 2023 + ((2 : ℕ) : ℤ) < srcC3.acquisition_year ∨
               srcC3.acquisition_year + (srcC3.lifetime : ℤ) ≤ 2023 + ((2 : ℕ) : ℤ) then 0
            else srcC3.emission_factor *
                projYear srcC3 [modC3] (2023 + ((2 : ℕ) : ℤ))
                  (mvAfterFrom srcC3 [modC3] 2023 srcC3.value 2) *
                (srcC3.quantity : ℚ) / (srcC3.lifetime : ℚ)) :=
  C3_theorem.1 srcC3 [modC3] 2023 2028 2 (by decide)

end ESG
